import Mathlib

/-!
Verification of the pod lifecycle controller in `vkubelet/pod.go`
(createPod, deletePod, updatePodStatus, updatePodStatuses).

The Go code is shallowly embedded: each controller function becomes a pure
Lean function parameterised by the outcomes of its external calls (the
provider adapter and the orchestrator record API).  Go `error` values are
`Option` values (`none` = nil error); the apimachinery NotFound
classification becomes the `K8sError.notFound` constructor; a nil-pointer
dereference (panic) is modelled by an `Option` result being `none`.
-/

/-- Pod phase, mirroring `corev1.PodPhase`. -/
inductive PodPhase where
  | pending
  | running
  | succeeded
  | failed
  | unknown
deriving DecidableEq

/-- Mirrors `corev1.ContainerStateRunning` (the field read by the code). -/
structure ContainerStateRunning where
  startedAt : Int
deriving DecidableEq

/-- Mirrors `corev1.ContainerStateWaiting` (fields not read by the code). -/
structure ContainerStateWaiting where
  reason : String
  message : String
deriving DecidableEq

/-- Mirrors `corev1.ContainerStateTerminated` (the fields written by the code). -/
structure ContainerStateTerminated where
  exitCode : Int
  reason : String
  message : String
  finishedAt : Int
  startedAt : Int
  containerID : String
deriving DecidableEq

/-- Mirrors `corev1.ContainerState`: three nilable pointers in Go. -/
structure ContainerState where
  waiting : Option ContainerStateWaiting
  running : Option ContainerStateRunning
  terminated : Option ContainerStateTerminated
deriving DecidableEq

/-- Mirrors `corev1.ContainerStatus` (the fields used by the code). -/
structure ContainerStatus where
  name : String
  state : ContainerState
  containerID : String
deriving DecidableEq

/-- Mirrors `corev1.PodStatus` (the fields used by the code). -/
structure PodStatus where
  phase : PodPhase
  reason : String
  message : String
  containerStatuses : List ContainerStatus
deriving DecidableEq

/-- Mirrors the parts of `corev1.PodSpec` the code and spec refer to:
the declared containers (by name) and the restart policy. -/
structure PodSpec where
  containers : List String
  restartPolicy : String
deriving DecidableEq

/-- Mirrors `corev1.Pod` (the fields used by the code).  Timestamps are
integers (seconds); `time.Minute` is 60. -/
structure Pod where
  ns : String
  name : String
  uid : String
  resourceVersion : String
  creationTimestamp : Int
  spec : PodSpec
  status : PodStatus
deriving DecidableEq

/-- A Go error from the orchestrator or provider, classified the way
`k8s.io/apimachinery/pkg/api/errors.IsNotFound` classifies it. -/
inductive K8sError where
  | notFound (msg : String)
  | other (msg : String)
deriving DecidableEq

/-- `err.Error()` for a classified error. -/
def K8sError.message : K8sError → String
  | .notFound m => m
  | .other m => m

/-- `errors.IsNotFound(err)` on a nilable error: false on nil. -/
def isNotFound : Option K8sError → Bool
  | some (K8sError.notFound _) => true
  | _ => false

/-- Modelled from the spec: the constant `podStatusReasonProviderFailed` is
referenced by `pod.go` but defined in a repository file not present under
`src/`; the spec fixes its value to the sentinel string "ProviderFailed". -/
def podStatusReasonProviderFailed : String := "ProviderFailed"

/-- Observable outcome of `deletePod`: the error it returns (`none` = nil)
and whether/with what grace period the orchestrator-side
`Pods(ns).Delete(name, &DeleteOptions{GracePeriodSeconds})` call was made
(`none` = the delete was never attempted). -/
structure DeletePodResult where
  result : Option K8sError
  k8sDelete : Option Int
deriving DecidableEq

/-- Embedding of `Server.deletePod` (pod.go lines 68-97), parameterised by
the outcome of `provider.DeletePod` and the outcome the orchestrator-side
delete would have.  The nested conditional on the orchestrator delete error
reproduces the source exactly, including its unreachable branch. -/
def deletePod (providerDelete : Option K8sError) (k8sDeleteErr : Option K8sError) :
    DeletePodResult :=
  let delErr := providerDelete
  if delErr.isSome && isNotFound delErr then
    { result := delErr, k8sDelete := none }
  else
    if !(isNotFound delErr) then
      let grace : Int := 0
      let err := k8sDeleteErr
      if err.isSome && isNotFound err then
        if isNotFound err then
          { result := none, k8sDelete := some grace }
        else
          { result := some (K8sError.other
              ("Failed to delete kubernetes pod: " ++ ((err.map K8sError.message).getD ""))),
            k8sDelete := some grace }
      else
        { result := none, k8sDelete := some grace }
    else
      { result := none, k8sDelete := none }

/-- Observable outcome of `createPod`: the returned error, whether
`provider.CreatePod` was reached, the final in-memory pod record, and the
sequence of `UpdateStatus` writes issued to the orchestrator record. -/
structure CreatePodResult where
  result : Option String
  providerCreateCalled : Bool
  pod : Pod
  statusWrites : List Pod
deriving DecidableEq

/-- Embedding of `Server.createPod` (pod.go lines 28-66), parameterised by
the outcome of `populateEnvironmentVariables` (a repository function not
under `src/`, modelled from the spec as a fallible resolution step that
precedes any provider call), the outcome of `provider.CreatePod`, and the
outcome of the `UpdateStatus` write. -/
def createPod (pod : Pod) (envErr : Option String) (providerCreateErr : Option String)
    (updateStatusErr : Option String) : CreatePodResult :=
  match envErr with
  | some e => { result := some e, providerCreateCalled := false, pod := pod, statusWrites := [] }
  | none =>
    match providerCreateErr with
    | some origErr =>
      let podPhase := if pod.spec.restartPolicy == "Never" then PodPhase.failed
                      else PodPhase.pending
      let pod1 : Pod := { pod with
        resourceVersion := "",
        status := { pod.status with
          phase := podPhase,
          reason := podStatusReasonProviderFailed,
          message := origErr } }
      -- the UpdateStatus failure (updateStatusErr) is only logged
      match updateStatusErr with
      | some _ =>
        { result := some origErr, providerCreateCalled := true, pod := pod1,
          statusWrites := [pod1] }
      | none =>
        { result := some origErr, providerCreateCalled := true, pod := pod1,
          statusWrites := [pod1] }
    | none =>
      { result := none, providerCreateCalled := true, pod := pod, statusWrites := [] }

/-- The terminal-state guard of `updatePodStatus` (pod.go lines 128-132). -/
def isTerminal (pod : Pod) : Bool :=
  pod.status.phase == PodPhase.succeeded ||
  pod.status.phase == PodPhase.failed ||
  pod.status.reason == podStatusReasonProviderFailed

/-- One iteration of the container-forcing loop of `updatePodStatus`
(pod.go lines 151-161): builds the Terminated state, reading
`c.State.Running.StartedAt` — a nil `Running` pointer there is a panic,
modelled as `none`. -/
def forceTerminated (now : Int) (c : ContainerStatus) : Option ContainerStatus :=
  match c.state.running with
  | none => none
  | some run =>
    some { c with state := { c.state with
      terminated := some {
        exitCode := -137,
        reason := "NotFound",
        message := "Container was not found and was likely deleted",
        finishedAt := now,
        startedAt := run.startedAt,
        containerID := c.containerID },
      running := none } }

/-- The container-forcing loop over `pod.Status.ContainerStatuses`; a panic
on any entry aborts the whole computation. -/
def forceAllTerminated (now : Int) : List ContainerStatus → Option (List ContainerStatus)
  | [] => some []
  | c :: rest =>
    match forceTerminated now c, forceAllTerminated now rest with
    | some c1, some rest1 => some (c1 :: rest1)
    | _, _ => none

/-- What `updatePodStatus` returns: nil or an error message. -/
inductive UpdateOutcome where
  | ok
  | err (msg : String)
deriving DecidableEq

/-- Observable outcome of `updatePodStatus`: the pod record after the call,
the returned error, and whether the provider call and the orchestrator
`UpdateStatus` write happened. -/
structure UpdatePodStatusResult where
  pod : Pod
  outcome : UpdateOutcome
  providerCalled : Bool
  k8sWrite : Bool
deriving DecidableEq

/-- Embedding of `Server.updatePodStatus` (pod.go lines 123-175),
parameterised by the result of `provider.GetPodStatus` for this pod and the
outcome of the orchestrator `UpdateStatus` write.  `none` is a panic (nil
`Running` dereference in the forcing loop). -/
def updatePodStatus (now : Int) (getPodStatus : Except String (Option PodStatus))
    (updateStatusErr : Option String) (pod : Pod) : Option UpdatePodStatusResult :=
  if isTerminal pod then
    some { pod := pod, outcome := .ok, providerCalled := false, k8sWrite := false }
  else
    match getPodStatus with
    | .error e =>
      some { pod := pod, outcome := .err ("error retreiving pod status: " ++ e),
             providerCalled := true, k8sWrite := false }
    | .ok st =>
      let newPod : Option Pod :=
        match st with
        | some status => some { pod with status := status }
        | none =>
          if pod.status.phase == PodPhase.running || pod.creationTimestamp + 60 < now then
            match forceAllTerminated now pod.status.containerStatuses with
            | none => none
            | some cs =>
              some { pod with status := { pod.status with
                phase := PodPhase.failed,
                reason := "NotFound",
                message := "The pod status was not found and may have been deleted from the provider",
                containerStatuses := cs } }
          else
            some pod
      match newPod with
      | none => none
      | some pod1 =>
        match updateStatusErr with
        | some e =>
          some { pod := pod1,
                 outcome := .err ("error while updating pod status in kubernetes: " ++ e),
                 providerCalled := true, k8sWrite := true }
        | none =>
          some { pod := pod1, outcome := .ok, providerCalled := true, k8sWrite := true }

/-- A sequence of reconciliation steps applied to one pod record, each step
with its own clock value, provider answer and write outcome. -/
def updatePodStatusSeq :
    List (Int × Except String (Option PodStatus) × Option String) → Pod → Option Pod
  | [], pod => some pod
  | (now, gs, we) :: rest, pod =>
    match updatePodStatus now gs we pod with
    | none => none
    | some r => updatePodStatusSeq rest r.pod

/-- Embedding of `Server.updatePodStatuses` (pod.go lines 100-121): iterate
the snapshot in order; before each pod consult the cancellation signal
(`cancelled i` = the context is done at the boundary before the i-th pod) and
stop if it has fired; a per-pod error is logged and the iteration continues.
`gs` and `we` give the provider status and write outcome per (namespace,
name).  Returns the pod list (processed prefix updated, remainder untouched)
and the number of pods processed; `none` is a propagated panic. -/
def updatePodStatuses (now : Int)
    (gs : String → String → Except String (Option PodStatus))
    (we : String → String → Option String)
    (cancelled : Nat → Bool) : Nat → List Pod → Option (List Pod × Nat)
  | _, [] => some ([], 0)
  | i, pod :: rest =>
    if cancelled i then
      some (pod :: rest, 0)
    else
      match updatePodStatus now (gs pod.ns pod.name) (we pod.ns pod.name) pod with
      | none => none
      | some r =>
        match updatePodStatuses now gs we cancelled (i + 1) rest with
        | none => none
        | some (pods1, k) => some (r.pod :: pods1, k + 1)

/-- Length of the maximal run of boundaries, starting at index i over n pods,
at which the cancellation signal has not fired. -/
def uncancelledCount (cancelled : Nat → Bool) : Nat → Nat → Nat
  | _, 0 => 0
  | i, n + 1 => if cancelled i then 0 else uncancelledCount cancelled (i + 1) n + 1

/-- A pod already marked Succeeded, used to instantiate the terminal
short-circuit theorem. -/
def terminalPodExample : Pod :=
  { ns := "default", name := "web", uid := "u1", resourceVersion := "7",
    creationTimestamp := 0,
    spec := { containers := ["c0"], restartPolicy := "Always" },
    status := { phase := PodPhase.succeeded, reason := "", message := "",
                containerStatuses := [] } }

/-- A pod whose declared container "foo" has no container-status entry, used
to separate "declared containers" from "container-status entries". -/
def c3Pod : Pod :=
  { ns := "default", name := "orphan", uid := "u2", resourceVersion := "3",
    creationTimestamp := 0,
    spec := { containers := ["foo"], restartPolicy := "Always" },
    status := { phase := PodPhase.running, reason := "", message := "",
                containerStatuses := [] } }

/-- A non-terminal Running pod with one Running container-status entry. -/
def c3RunningPod : Pod :=
  { ns := "default", name := "lost", uid := "u4", resourceVersion := "5",
    creationTimestamp := 0,
    spec := { containers := ["foo"], restartPolicy := "Always" },
    status := { phase := PodPhase.running, reason := "", message := "",
                containerStatuses := [
                  { name := "foo",
                    state := { waiting := none, running := some { startedAt := 5 },
                               terminated := none },
                    containerID := "cid-a" }] } }

/-- A Running pod whose single container-status entry is Waiting (its
Running pointer is nil). -/
def c9Pod : Pod :=
  { ns := "default", name := "stuck", uid := "u3", resourceVersion := "4",
    creationTimestamp := 0,
    spec := { containers := ["foo"], restartPolicy := "Always" },
    status := { phase := PodPhase.running, reason := "", message := "",
                containerStatuses := [
                  { name := "foo",
                    state := { waiting := some { reason := "ImagePullBackOff", message := "" },
                               running := none, terminated := none },
                    containerID := "cid-b" }] } }

/-- A Running pod with one Running container, input of the C8 witness. -/
def c8Pod : Pod :=
  { ns := "default", name := "web-0", uid := "u5", resourceVersion := "9",
    creationTimestamp := 0,
    spec := { containers := ["bar"], restartPolicy := "Always" },
    status := { phase := PodPhase.running, reason := "", message := "",
                containerStatuses := [
                  { name := "bar",
                    state := { waiting := none, running := some { startedAt := 3 },
                               terminated := none },
                    containerID := "cid-c" }] } }

/-- The pod the first sweep pass produces from `c8Pod` when the provider has
lost track of it (clock = 61). -/
def c8PodAfter : Pod :=
  { c8Pod with status := {
      phase := PodPhase.failed,
      reason := "NotFound",
      message := "The pod status was not found and may have been deleted from the provider",
      containerStatuses := [
        { name := "bar",
          state := { waiting := none, running := none,
                     terminated := some {
                       exitCode := -137,
                       reason := "NotFound",
                       message := "Container was not found and was likely deleted",
                       finishedAt := 61,
                       startedAt := 3,
                       containerID := "cid-c" } },
          containerID := "cid-c" }] } }

/-- Claim C1 (counterexample): when `provider.DeletePod` reports NotFound,
`deletePod` returns the NotFound error but does NOT attempt the
orchestrator-side delete, contradicting the claim that the orchestrator
record delete still proceeds with grace period zero. -/
theorem c1_counterexample :
    (deletePod (some (K8sError.notFound "pod not found")) none).result
        = some (K8sError.notFound "pod not found") ∧
    (deletePod (some (K8sError.notFound "pod not found")) none).k8sDelete = none ∧
    (deletePod (some (K8sError.notFound "pod not found")) none).k8sDelete ≠ some 0 := by
  refine ⟨rfl, rfl, ?_⟩
  intro h
  exact Option.noConfusion h

/-- Claim C1 (amended): a provider NotFound is returned to the caller and the
orchestrator-side delete is skipped; the orchestrator-side delete (with grace
period zero) is attempted exactly when the provider outcome is not NotFound
(success or any non-NotFound error). -/
theorem c1_notfound_returned_orchestrator_delete_skipped
    (pd kd : Option K8sError) (m : String) :
    (deletePod pd kd).k8sDelete = (if isNotFound pd then none else some 0) ∧
    (deletePod (some (K8sError.notFound m)) kd).result = some (K8sError.notFound m) := by
  constructor
  · match pd, kd with
    | none, none => rfl
    | none, some (K8sError.notFound _) => rfl
    | none, some (K8sError.other _) => rfl
    | some (K8sError.notFound _), _ => rfl
    | some (K8sError.other _), none => rfl
    | some (K8sError.other _), some (K8sError.notFound _) => rfl
    | some (K8sError.other _), some (K8sError.other _) => rfl
  · rfl

/-- Claim C2 (code evaluation at the failing input): a non-NotFound error
from `provider.DeletePod` is discarded — `deletePod` proceeds to the
orchestrator-side delete and returns nil instead of surfacing the provider
failure. -/
theorem c2_nonnotfound_provider_error_swallowed :
    deletePod (some (K8sError.other "provider exploded")) none
      = { result := none, k8sDelete := some 0 } := by
  rfl

/-- Claim C6 (code evaluation at the failing input): an orchestrator-side
delete reporting NotFound is a no-op success (first conjunct, as claimed),
but a non-NotFound orchestrator delete error is also swallowed and
`deletePod` returns nil (second conjunct) — the error-surfacing branch in the
source is dead code, contradicting the claim that any other orchestrator
delete error is surfaced. -/
theorem c6_orchestrator_delete_errors :
    deletePod none (some (K8sError.notFound "already gone"))
      = { result := none, k8sDelete := some 0 } ∧
    deletePod none (some (K8sError.other "etcd down"))
      = { result := none, k8sDelete := some 0 } := by
  exact ⟨rfl, rfl⟩

/-- Claim C5: when `provider.CreatePod` fails, `createPod` clears the
resource version, sets the phase to Failed for restart policy "Never" and
Pending otherwise, sets the sentinel reason "ProviderFailed" and the provider
error text as message, issues exactly one best-effort status write of that
record, and returns the original provider error regardless of the write
outcome. -/
theorem c5_create_provider_failure (p : Pod) (e : String) (we : Option String) :
    (createPod p none (some e) we).result = some e ∧
    (createPod p none (some e) we).providerCreateCalled = true ∧
    (createPod p none (some e) we).pod.resourceVersion = "" ∧
    (createPod p none (some e) we).pod.status.phase
        = (if p.spec.restartPolicy == "Never" then PodPhase.failed else PodPhase.pending) ∧
    (createPod p none (some e) we).pod.status.reason = "ProviderFailed" ∧
    (createPod p none (some e) we).pod.status.message = e ∧
    (createPod p none (some e) we).statusWrites = [(createPod p none (some e) we).pod] := by
  match we with
  | some w => simp [createPod, podStatusReasonProviderFailed]
  | none => simp [createPod, podStatusReasonProviderFailed]

/-- Claim C10: when environment-variable resolution fails, `createPod`
returns that error without calling `provider.CreatePod`, without modifying
the pod, and without any status write. -/
theorem c10_env_failure_atomic (p : Pod) (e : String) (ce we : Option String) :
    createPod p (some e) ce we
      = { result := some e, providerCreateCalled := false, pod := p, statusWrites := [] } := by
  rfl

/-- A terminal pod is returned unchanged by `updatePodStatus`, with no
provider call and no orchestrator write. -/
theorem updatePodStatus_terminal (p : Pod) (h : isTerminal p = true)
    (now : Int) (gs : Except String (Option PodStatus)) (we : Option String) :
    updatePodStatus now gs we p
      = some { pod := p, outcome := UpdateOutcome.ok,
               providerCalled := false, k8sWrite := false } := by
  simp [updatePodStatus, h]

/-- Claim C4: `updatePodStatus` on a pod whose phase is Succeeded or Failed,
or whose status reason is the provider-failure sentinel, is a no-op success —
no provider call, no orchestrator write, pod unchanged — and consequently no
sequence of later reconciliation steps ever changes the pod record (in
particular its phase, reason, and message). -/
theorem c4_terminal_short_circuit (p : Pod) (h : isTerminal p = true) :
    (∀ (now : Int) (gs : Except String (Option PodStatus)) (we : Option String),
      updatePodStatus now gs we p
        = some { pod := p, outcome := UpdateOutcome.ok,
                 providerCalled := false, k8sWrite := false }) ∧
    (∀ steps, updatePodStatusSeq steps p = some p) := by
  refine ⟨fun now gs we => updatePodStatus_terminal p h now gs we, fun steps => ?_⟩
  induction steps with
  | nil => rfl
  | cons s rest ih =>
    obtain ⟨now, gs, we⟩ := s
    simp [updatePodStatusSeq, updatePodStatus_terminal p h now gs we, ih]

/-- Claim C4 witness: the short-circuit evaluated on a concrete Succeeded pod. -/
theorem c4_witness :
    updatePodStatus 100 (Except.ok none) (some "write failed") terminalPodExample
      = some { pod := terminalPodExample, outcome := UpdateOutcome.ok,
               providerCalled := false, k8sWrite := false } :=
  (c4_terminal_short_circuit terminalPodExample (by decide)).1 100 (Except.ok none)
    (some "write failed")

/-- When the container status is in the Running state, the forcing step
produces the Terminated entry with exit code -137, reason NotFound,
finished-at = now, started-at preserved from the Running state, and both
container identifier and name preserved. -/
theorem forceTerminated_running (now : Int) (c : ContainerStatus) (rn : ContainerStateRunning)
    (h : c.state.running = some rn) :
    forceTerminated now c
      = some {
          name := c.name,
          state := {
            waiting := c.state.waiting,
            running := none,
            terminated := some {
              exitCode := -137,
              reason := "NotFound",
              message := "Container was not found and was likely deleted",
              finishedAt := now,
              startedAt := rn.startedAt,
              containerID := c.containerID } },
          containerID := c.containerID } := by
  simp [forceTerminated, h]

/-- The forcing loop completes exactly when every container status entry is
currently Running (otherwise the loop dereferences a nil Running state). -/
theorem forceAllTerminated_isSome (now : Int) (l : List ContainerStatus) :
    (forceAllTerminated now l).isSome = l.all (fun c => c.state.running.isSome) := by
  induction l with
  | nil => rfl
  | cons c rest ih =>
    cases hc : c.state.running with
    | none =>
      simp [forceAllTerminated, forceTerminated, hc]
    | some run =>
      cases hr : forceAllTerminated now rest with
      | none =>
        have ih2 := ih
        rw [hr] at ih2
        simp only [Option.isSome_none] at ih2
        simp [forceAllTerminated, forceTerminated, hc, hr, ← ih2]
      | some rest1 =>
        have ih2 := ih
        rw [hr] at ih2
        simp only [Option.isSome_some] at ih2
        simp [forceAllTerminated, forceTerminated, hc, hr, ← ih2]

/-- A successful forcing loop preserves the list length and transforms each
Running entry pointwise into the sentinel Terminated entry. -/
theorem forceAllTerminated_get (now : Int) :
    ∀ (l l2 : List ContainerStatus), forceAllTerminated now l = some l2 →
      l2.length = l.length ∧
      ∀ (i : Nat) (hi : i < l.length) (hi2 : i < l2.length) (rn : ContainerStateRunning),
        (l.get ⟨i, hi⟩).state.running = some rn →
        l2.get ⟨i, hi2⟩
          = {
              name := (l.get ⟨i, hi⟩).name,
              state := {
                waiting := (l.get ⟨i, hi⟩).state.waiting,
                running := none,
                terminated := some {
                  exitCode := -137,
                  reason := "NotFound",
                  message := "Container was not found and was likely deleted",
                  finishedAt := now,
                  startedAt := rn.startedAt,
                  containerID := (l.get ⟨i, hi⟩).containerID } },
              containerID := (l.get ⟨i, hi⟩).containerID } := by
  intro l
  induction l with
  | nil =>
    intro l2 h
    simp only [forceAllTerminated] at h
    cases h
    exact ⟨rfl, fun i hi => absurd hi (Nat.not_lt_zero i)⟩
  | cons c rest ih =>
    intro l2 h
    simp only [forceAllTerminated] at h
    cases hc : forceTerminated now c with
    | none => rw [hc] at h; cases h
    | some c1 =>
      cases hr : forceAllTerminated now rest with
      | none => rw [hc, hr] at h; cases h
      | some rest1 =>
        rw [hc, hr] at h
        cases h
        obtain ⟨hlen, hget⟩ := ih rest1 hr
        refine ⟨by simp [hlen], ?_⟩
        intro i hi hi2 rn hrn
        match i with
        | 0 =>
          simp only [List.get] at hrn ⊢
          rw [forceTerminated_running now c rn hrn] at hc
          exact (Option.some.injEq _ _).mp hc.symm
        | i + 1 =>
          simp only [List.get] at hrn ⊢
          exact hget i (Nat.lt_of_succ_lt_succ hi) (Nat.lt_of_succ_lt_succ hi2) rn hrn

/-- Claim C3 (counterexample): on the nil-status mutation path the pod is
marked Failed, yet its declared container "foo" is never forced to Terminated
— the loop runs over `status.containerStatuses` (empty here), not over the
declared containers of the spec. -/
theorem c3_counterexample :
    (updatePodStatus 61 (Except.ok none) none c3Pod).map
        (fun r => (r.pod.status.phase,
                   r.pod.status.containerStatuses.any (fun c => c.name == "foo")))
      = some (PodPhase.failed, false) ∧
    c3Pod.spec.containers = ["foo"] := by
  exact ⟨rfl, rfl⟩

/-- Claim C3 (amended): for a non-terminal pod whose container-status entries
are all Running, when the provider returns a nil status without error the pod
is mutated to Failed iff the local phase was Running or more than one minute
has elapsed since creation; on that path reason is "NotFound", the message
explains likely deletion, and every container-status entry (not every
declared container of the spec) is forced to Terminated with exit code -137,
reason "NotFound", finished-at = now, started-at preserved from the Running
state, and container identifier preserved; otherwise the pod is unchanged. -/
theorem c3_notfound_mutation (now : Int) (we : Option String) (p : Pod)
    (h1 : isTerminal p = false)
    (h2 : ∀ c ∈ p.status.containerStatuses, c.state.running.isSome = true) :
    ∃ r, updatePodStatus now (Except.ok none) we p = some r ∧
      r.providerCalled = true ∧ r.k8sWrite = true ∧
      ((r.pod.status.phase = PodPhase.failed) ↔
        (p.status.phase = PodPhase.running ∨ p.creationTimestamp + 60 < now)) ∧
      ((p.status.phase = PodPhase.running ∨ p.creationTimestamp + 60 < now) →
        r.pod.status.phase = PodPhase.failed ∧
        r.pod.status.reason = "NotFound" ∧
        r.pod.status.message
          = "The pod status was not found and may have been deleted from the provider" ∧
        r.pod.status.containerStatuses.length = p.status.containerStatuses.length ∧
        (∀ (i : Nat) (hi : i < p.status.containerStatuses.length)
            (hi2 : i < r.pod.status.containerStatuses.length) (rn : ContainerStateRunning),
          (p.status.containerStatuses.get ⟨i, hi⟩).state.running = some rn →
          r.pod.status.containerStatuses.get ⟨i, hi2⟩
            = {
                name := (p.status.containerStatuses.get ⟨i, hi⟩).name,
                state := {
                  waiting := (p.status.containerStatuses.get ⟨i, hi⟩).state.waiting,
                  running := none,
                  terminated := some {
                    exitCode := -137,
                    reason := "NotFound",
                    message := "Container was not found and was likely deleted",
                    finishedAt := now,
                    startedAt := rn.startedAt,
                    containerID := (p.status.containerStatuses.get ⟨i, hi⟩).containerID } },
                containerID := (p.status.containerStatuses.get ⟨i, hi⟩).containerID })) ∧
      ((¬ (p.status.phase = PodPhase.running ∨ p.creationTimestamp + 60 < now)) →
        r.pod = p) := by
  have hterm : p.status.phase ≠ PodPhase.failed := by
    simp only [isTerminal, Bool.or_eq_false_iff, beq_eq_false_iff_ne, ne_eq] at h1
    exact h1.1.2
  by_cases hcond : p.status.phase = PodPhase.running ∨ p.creationTimestamp + 60 < now
  · have hcondb :
        (p.status.phase == PodPhase.running || decide (p.creationTimestamp + 60 < now)) = true := by
      rcases hcond with hc | hc
      · simp [hc]
      · simp [hc]
    have hall : p.status.containerStatuses.all (fun c => c.state.running.isSome) = true :=
      List.all_eq_true.mpr h2
    have hsome : (forceAllTerminated now p.status.containerStatuses).isSome = true := by
      rw [forceAllTerminated_isSome]; exact hall
    obtain ⟨cs, hcs⟩ := Option.isSome_iff_exists.mp hsome
    obtain ⟨hlen, hget⟩ := forceAllTerminated_get now p.status.containerStatuses cs hcs
    have hupd :
        updatePodStatus now (Except.ok none) we p
          = (match we with
             | some e =>
               some { pod := { p with status := { p.status with
                        phase := PodPhase.failed,
                        reason := "NotFound",
                        message := "The pod status was not found and may have been deleted from the provider",
                        containerStatuses := cs } },
                      outcome := UpdateOutcome.err
                        ("error while updating pod status in kubernetes: " ++ e),
                      providerCalled := true, k8sWrite := true }
             | none =>
               some { pod := { p with status := { p.status with
                        phase := PodPhase.failed,
                        reason := "NotFound",
                        message := "The pod status was not found and may have been deleted from the provider",
                        containerStatuses := cs } },
                      outcome := UpdateOutcome.ok,
                      providerCalled := true, k8sWrite := true }) := by
      simp [updatePodStatus, h1, hcondb, hcs]
    match we with
    | some e =>
      refine ⟨_, by rw [hupd], rfl, rfl, by simp [hcond], fun _ => ⟨rfl, rfl, rfl, ?_, ?_⟩,
        fun hn => absurd hcond hn⟩
      · exact hlen
      · intro i hi hi2 rn hrn
        exact hget i hi hi2 rn hrn
    | none =>
      refine ⟨_, by rw [hupd], rfl, rfl, by simp [hcond], fun _ => ⟨rfl, rfl, rfl, ?_, ?_⟩,
        fun hn => absurd hcond hn⟩
      · exact hlen
      · intro i hi hi2 rn hrn
        exact hget i hi hi2 rn hrn
  · have hcondb :
        (p.status.phase == PodPhase.running || decide (p.creationTimestamp + 60 < now)) = false := by
      push_neg at hcond
      simp [hcond.1, hcond.2]
    have hupd :
        updatePodStatus now (Except.ok none) we p
          = (match we with
             | some e =>
               some { pod := p,
                      outcome := UpdateOutcome.err
                        ("error while updating pod status in kubernetes: " ++ e),
                      providerCalled := true, k8sWrite := true }
             | none =>
               some { pod := p, outcome := UpdateOutcome.ok,
                      providerCalled := true, k8sWrite := true }) := by
      simp [updatePodStatus, h1, hcondb]
    match we with
    | some e =>
      exact ⟨_, by rw [hupd], rfl, rfl, by simp [hterm, hcond],
        fun hc => absurd hc hcond, fun _ => rfl⟩
    | none =>
      exact ⟨_, by rw [hupd], rfl, rfl, by simp [hterm, hcond],
        fun hc => absurd hc hcond, fun _ => rfl⟩

/-- Claim C3 witness: the amended statement instantiated on a concrete
Running pod whose single container-status entry is Running. -/
theorem c3_witness :
    ∃ r, updatePodStatus 61 (Except.ok none) none c3RunningPod = some r ∧
      r.pod.status.phase = PodPhase.failed ∧
      r.pod.status.reason = "NotFound" ∧
      r.pod.status.containerStatuses.length = 1 := by
  obtain ⟨r, hr, _, _, _, hmut, _⟩ :=
    c3_notfound_mutation 61 none c3RunningPod (by decide) (by decide)
  obtain ⟨hph, hre, _, hlen, _⟩ := hmut (Or.inl rfl)
  exact ⟨r, hr, hph, hre, hlen⟩

/-- Claim C9: on the nil-status mutation path of `updatePodStatus` the
operation is well-defined (does not panic) exactly when every
container-status entry of the pod is currently Running; any Waiting or
Terminated entry makes the forcing loop dereference a nil Running state. -/
theorem c9_nil_running_dereference (now : Int) (we : Option String) (p : Pod)
    (h1 : isTerminal p = false)
    (h2 : p.status.phase = PodPhase.running ∨ p.creationTimestamp + 60 < now) :
    (updatePodStatus now (Except.ok none) we p).isSome
      = p.status.containerStatuses.all (fun c => c.state.running.isSome) := by
  have hcondb :
      (p.status.phase == PodPhase.running || decide (p.creationTimestamp + 60 < now)) = true := by
    rcases h2 with hc | hc
    · simp [hc]
    · simp [hc]
  rw [← forceAllTerminated_isSome now]
  cases hcs : forceAllTerminated now p.status.containerStatuses with
  | none => simp [updatePodStatus, h1, hcondb, hcs]
  | some cs =>
    match we with
    | some e => simp [updatePodStatus, h1, hcondb, hcs]
    | none => simp [updatePodStatus, h1, hcondb, hcs]

/-- Claim C9 witness: on a concrete pod with a Waiting container-status
entry the operation is undefined (the modelled panic). -/
theorem c9_witness :
    (updatePodStatus 61 (Except.ok none) none c9Pod).isSome
      = c9Pod.status.containerStatuses.all (fun c => c.state.running.isSome) :=
  c9_nil_running_dereference 61 none c9Pod (by decide) (Or.inl rfl)

/-- Evaluation of `updatePodStatus` on a non-terminal pod when the provider
call fails: the error is wrapped and returned, the pod is unchanged, and no
orchestrator write happens. -/
theorem updatePodStatus_provider_error (now : Int) (e : String) (we : Option String) (p : Pod)
    (h : isTerminal p = false) :
    updatePodStatus now (Except.error e) we p
      = some { pod := p, outcome := UpdateOutcome.err ("error retreiving pod status: " ++ e),
               providerCalled := true, k8sWrite := false } := by
  simp [updatePodStatus, h]

/-- Evaluation of `updatePodStatus` on a non-terminal pod when the provider
returns a live status: the status replaces the pod status wholesale and is
written back. -/
theorem updatePodStatus_live_status (now : Int) (st : PodStatus) (we : Option String) (p : Pod)
    (h : isTerminal p = false) :
    updatePodStatus now (Except.ok (some st)) we p
      = some { pod := { p with status := st },
               outcome := match we with
                          | some e =>
                            UpdateOutcome.err
                              ("error while updating pod status in kubernetes: " ++ e)
                          | none => UpdateOutcome.ok,
               providerCalled := true, k8sWrite := true } := by
  match we with
  | some e => simp [updatePodStatus, h]
  | none => simp [updatePodStatus, h]

/-- Evaluation of `updatePodStatus` on a non-terminal pod when the provider
returns nil status but the grace-window condition does not hold: the pod is
unchanged and its (unchanged) status is still written back. -/
theorem updatePodStatus_nil_noop (now : Int) (we : Option String) (p : Pod)
    (h : isTerminal p = false)
    (hcond : (p.status.phase == PodPhase.running
              || decide (p.creationTimestamp + 60 < now)) = false) :
    updatePodStatus now (Except.ok none) we p
      = some { pod := p,
               outcome := match we with
                          | some e =>
                            UpdateOutcome.err
                              ("error while updating pod status in kubernetes: " ++ e)
                          | none => UpdateOutcome.ok,
               providerCalled := true, k8sWrite := true } := by
  match we with
  | some e => simp [updatePodStatus, h, hcond]
  | none => simp [updatePodStatus, h, hcond]

/-- Evaluation of `updatePodStatus` on a non-terminal pod when the provider
returns nil status and the grace-window condition holds: the pod is marked
Failed/NotFound with the forced container statuses. -/
theorem updatePodStatus_nil_failed (now : Int) (we : Option String) (p : Pod)
    (cs : List ContainerStatus)
    (h : isTerminal p = false)
    (hcond : (p.status.phase == PodPhase.running
              || decide (p.creationTimestamp + 60 < now)) = true)
    (hcs : forceAllTerminated now p.status.containerStatuses = some cs) :
    updatePodStatus now (Except.ok none) we p
      = some { pod := { p with status := { p.status with
                 phase := PodPhase.failed,
                 reason := "NotFound",
                 message := "The pod status was not found and may have been deleted from the provider",
                 containerStatuses := cs } },
               outcome := match we with
                          | some e =>
                            UpdateOutcome.err
                              ("error while updating pod status in kubernetes: " ++ e)
                          | none => UpdateOutcome.ok,
               providerCalled := true, k8sWrite := true } := by
  match we with
  | some e => simp [updatePodStatus, h, hcond, hcs]
  | none => simp [updatePodStatus, h, hcond, hcs]

/-- With a failing provider, `updatePodStatus` never changes the pod. -/
theorem updatePodStatus_error_env (now : Int) (e : String) (we : Option String) (p : Pod) :
    ∃ r, updatePodStatus now (Except.error e) we p = some r ∧ r.pod = p := by
  cases ht : isTerminal p with
  | true => exact ⟨_, updatePodStatus_terminal p ht now (Except.error e) we, rfl⟩
  | false => exact ⟨_, updatePodStatus_provider_error now e we p ht, rfl⟩

/-- With a failing provider, the sweep still walks the whole uncancelled
prefix, leaving every pod unchanged. -/
theorem updatePodStatuses_error_env (now : Int) (e : String)
    (we : String → String → Option String) (cancelled : Nat → Bool) :
    ∀ (pods : List Pod) (i : Nat),
      updatePodStatuses now (fun _ _ => Except.error e) we cancelled i pods
        = some (pods, uncancelledCount cancelled i pods.length) := by
  intro pods
  induction pods with
  | nil => intro i; rfl
  | cons p rest ih =>
    intro i
    cases hc : cancelled i with
    | true => simp [updatePodStatuses, uncancelledCount, hc]
    | false =>
      obtain ⟨r, hr, hrp⟩ := updatePodStatus_error_env now e (we p.ns p.name) p
      simp [updatePodStatuses, uncancelledCount, hc, hr, hrp, ih]

/-- Shape of any completed sweep: the processed count is the maximal
uncancelled prefix length, the list keeps its length, and everything at or
beyond the truncation point is untouched. -/
theorem updatePodStatuses_spec (now : Int)
    (gs : String → String → Except String (Option PodStatus))
    (we : String → String → Option String) (cancelled : Nat → Bool) :
    ∀ (pods : List Pod) (i : Nat) (ps : List Pod) (k : Nat),
      updatePodStatuses now gs we cancelled i pods = some (ps, k) →
      k = uncancelledCount cancelled i pods.length ∧
      ps.length = pods.length ∧
      List.drop k ps = List.drop k pods := by
  intro pods
  induction pods with
  | nil =>
    intro i ps k h
    simp only [updatePodStatuses] at h
    cases h
    exact ⟨rfl, rfl, rfl⟩
  | cons p rest ih =>
    intro i ps k h
    simp only [updatePodStatuses] at h
    cases hc : cancelled i with
    | true =>
      rw [hc] at h
      simp only [if_true] at h
      cases h
      exact ⟨by simp [uncancelledCount, hc], rfl, rfl⟩
    | false =>
      rw [hc] at h
      simp only [Bool.false_eq_true, if_false] at h
      cases hu : updatePodStatus now (gs p.ns p.name) (we p.ns p.name) p with
      | none => rw [hu] at h; cases h
      | some r =>
        rw [hu] at h
        cases hrest : updatePodStatuses now gs we cancelled (i + 1) rest with
        | none => rw [hrest] at h; cases h
        | some pk =>
          obtain ⟨pods1, k1⟩ := pk
          rw [hrest] at h
          cases h
          obtain ⟨ih1, ih2, ih3⟩ := ih (i + 1) pods1 k1 hrest
          refine ⟨by simp [uncancelledCount, hc, ih1], by simp [ih2], ?_⟩
          simpa [List.drop_succ_cons] using ih3

/-- Claim C7: whenever the sweep completes, the set of pods it processed is
the maximal uncancelled prefix of the snapshot — `k` pods processed where `k`
is determined solely by the cancellation signal at inter-pod boundaries, the
remainder of the snapshot is untouched, and (last conjunct) even when every
per-pod update fails the sweep still processes that same prefix: per-pod
errors never truncate the iteration, only cancellation does. -/
theorem c7_sweep_cancellation_prefix (now : Int)
    (gs : String → String → Except String (Option PodStatus))
    (we : String → String → Option String)
    (cancelled : Nat → Bool) (i : Nat) (pods ps : List Pod) (k : Nat)
    (h : updatePodStatuses now gs we cancelled i pods = some (ps, k)) :
    k = uncancelledCount cancelled i pods.length ∧
    ps.length = pods.length ∧
    List.drop k ps = List.drop k pods ∧
    updatePodStatuses now (fun _ _ => Except.error "provider unavailable") we cancelled i pods
      = some (pods, uncancelledCount cancelled i pods.length) := by
  obtain ⟨h1, h2, h3⟩ := updatePodStatuses_spec now gs we cancelled pods i ps k h
  exact ⟨h1, h2, h3, updatePodStatuses_error_env now "provider unavailable" we cancelled pods i⟩

/-- Claim C7 witness: a two-pod snapshot with cancellation firing at the
boundary before the second pod — exactly one pod is processed. -/
theorem c7_witness :
    (1 : Nat) = uncancelledCount (fun i => decide (1 ≤ i)) 0
        ([terminalPodExample, terminalPodExample] : List Pod).length ∧
    ([terminalPodExample, terminalPodExample] : List Pod).length
      = ([terminalPodExample, terminalPodExample] : List Pod).length ∧
    List.drop 1 ([terminalPodExample, terminalPodExample] : List Pod)
      = List.drop 1 ([terminalPodExample, terminalPodExample] : List Pod) ∧
    updatePodStatuses 0 (fun _ _ => Except.error "provider unavailable") (fun _ _ => none)
        (fun i => decide (1 ≤ i)) 0 [terminalPodExample, terminalPodExample]
      = some ([terminalPodExample, terminalPodExample],
              uncancelledCount (fun i => decide (1 ≤ i)) 0
                ([terminalPodExample, terminalPodExample] : List Pod).length) :=
  c7_sweep_cancellation_prefix 0 (fun _ _ => Except.ok none) (fun _ _ => none)
    (fun i => decide (1 ≤ i)) 0 [terminalPodExample, terminalPodExample]
    [terminalPodExample, terminalPodExample] 1 (by decide)

/-- One reconciliation step is idempotent on the pod record: a second step
with the same clock and the same per-(namespace, name) provider answers
leaves the pod exactly where the first step left it. -/
theorem updatePodStatus_idem (now : Int)
    (gs : String → String → Except String (Option PodStatus))
    (we : String → String → Option String) (p : Pod) (r : UpdatePodStatusResult)
    (h : updatePodStatus now (gs p.ns p.name) (we p.ns p.name) p = some r) :
    r.pod.ns = p.ns ∧ r.pod.name = p.name ∧
    ∃ r2, updatePodStatus now (gs r.pod.ns r.pod.name) (we r.pod.ns r.pod.name) r.pod = some r2
        ∧ r2.pod = r.pod := by
  cases ht : isTerminal p with
  | true =>
    rw [updatePodStatus_terminal p ht] at h
    cases h
    exact ⟨rfl, rfl, _, updatePodStatus_terminal p ht now _ _, rfl⟩
  | false =>
    cases hg : gs p.ns p.name with
    | error e =>
      rw [hg, updatePodStatus_provider_error now e _ p ht] at h
      cases h
      refine ⟨rfl, rfl,
        { pod := p, outcome := UpdateOutcome.err ("error retreiving pod status: " ++ e),
          providerCalled := true, k8sWrite := false }, ?_, rfl⟩
      show updatePodStatus now (gs p.ns p.name) (we p.ns p.name) p = some _
      rw [hg]
      exact updatePodStatus_provider_error now e (we p.ns p.name) p ht
    | ok st =>
      cases st with
      | some status =>
        rw [hg, updatePodStatus_live_status now status _ p ht] at h
        cases h
        refine ⟨rfl, rfl, ?_⟩
        cases ht2 : isTerminal { p with status := status } with
        | true =>
          exact ⟨_, updatePodStatus_terminal _ ht2 now _ _, rfl⟩
        | false =>
          refine ⟨{ pod := { p with status := status },
                    outcome := match we p.ns p.name with
                               | some e2 =>
                                 UpdateOutcome.err
                                   ("error while updating pod status in kubernetes: " ++ e2)
                               | none => UpdateOutcome.ok,
                    providerCalled := true, k8sWrite := true }, ?_, rfl⟩
          show updatePodStatus now (gs p.ns p.name) (we p.ns p.name)
              { p with status := status } = some _
          rw [hg]
          exact updatePodStatus_live_status now status (we p.ns p.name)
            { p with status := status } ht2
      | none =>
        cases hcond : (p.status.phase == PodPhase.running
                       || decide (p.creationTimestamp + 60 < now)) with
        | false =>
          rw [hg, updatePodStatus_nil_noop now _ p ht hcond] at h
          cases h
          refine ⟨rfl, rfl,
            { pod := p,
              outcome := match we p.ns p.name with
                         | some e2 =>
                           UpdateOutcome.err
                             ("error while updating pod status in kubernetes: " ++ e2)
                         | none => UpdateOutcome.ok,
              providerCalled := true, k8sWrite := true }, ?_, rfl⟩
          show updatePodStatus now (gs p.ns p.name) (we p.ns p.name) p = some _
          rw [hg]
          exact updatePodStatus_nil_noop now (we p.ns p.name) p ht hcond
        | true =>
          cases hcs : forceAllTerminated now p.status.containerStatuses with
          | none =>
            rw [hg] at h
            simp [updatePodStatus, ht, hcond, hcs] at h
          | some cs =>
            rw [hg, updatePodStatus_nil_failed now _ p cs ht hcond hcs] at h
            cases h
            refine ⟨rfl, rfl, _, updatePodStatus_terminal _ ?_ now _ _, rfl⟩
            simp [isTerminal]

/-- The no-cancellation sweep is idempotent: rerunning it on its own output,
with the same clock and per-(namespace, name) provider answers, reproduces
that output exactly. -/
theorem updatePodStatuses_idem (now : Int)
    (gs : String → String → Except String (Option PodStatus))
    (we : String → String → Option String) :
    ∀ (pods : List Pod) (i j : Nat) (ps1 : List Pod) (k1 : Nat),
      updatePodStatuses now gs we (fun _ => false) i pods = some (ps1, k1) →
      updatePodStatuses now gs we (fun _ => false) j ps1 = some (ps1, k1) := by
  intro pods
  induction pods with
  | nil =>
    intro i j ps1 k1 h
    simp only [updatePodStatuses] at h
    cases h
    rfl
  | cons p rest ih =>
    intro i j ps1 k1 h
    simp only [updatePodStatuses, Bool.false_eq_true, if_false] at h
    cases hu : updatePodStatus now (gs p.ns p.name) (we p.ns p.name) p with
    | none => rw [hu] at h; cases h
    | some r =>
      rw [hu] at h
      cases hrest : updatePodStatuses now gs we (fun _ => false) (i + 1) rest with
      | none => rw [hrest] at h; cases h
      | some pk =>
        obtain ⟨pods1, krest⟩ := pk
        rw [hrest] at h
        cases h
        obtain ⟨hns, hname, r2, hr2, hr2p⟩ := updatePodStatus_idem now gs we p r hu
        simp only [updatePodStatuses, Bool.false_eq_true, if_false]
        rw [hr2, ih (i + 1) (j + 1) pods1 krest hrest]
        show some (r2.pod :: pods1, krest + 1) = some (r.pod :: pods1, krest + 1)
        rw [hr2p]

/-- Claim C8: with a fixed provider (GetPodStatus keyed by namespace and
name, returning the same answer on both passes) and a fixed clock, running
the sweep a second time on the output of a completed first pass returns that
output unchanged — in particular every pod keeps the phase, reason, and
message the first pass gave it. -/
theorem c8_sweep_idempotent (now : Int)
    (gs : String → String → Except String (Option PodStatus))
    (we : String → String → Option String) (pods ps1 : List Pod) (k1 : Nat)
    (h : updatePodStatuses now gs we (fun _ => false) 0 pods = some (ps1, k1)) :
    ∃ ps2 k2,
      updatePodStatuses now gs we (fun _ => false) 0 ps1 = some (ps2, k2) ∧
      ps2 = ps1 ∧ k2 = k1 ∧
      ps2.map (fun q => (q.status.phase, q.status.reason, q.status.message))
        = ps1.map (fun q => (q.status.phase, q.status.reason, q.status.message)) :=
  ⟨ps1, k1, updatePodStatuses_idem now gs we pods 0 0 ps1 k1 h, rfl, rfl, rfl⟩

/-- Claim C8 witness: a concrete first pass marks `c8Pod` Failed/NotFound;
the second pass on that output reproduces it unchanged. -/
theorem c8_witness :
    ∃ ps2 k2,
      updatePodStatuses 61 (fun _ _ => Except.ok none) (fun _ _ => none) (fun _ => false) 0
          [c8PodAfter]
        = some (ps2, k2) ∧
      ps2 = [c8PodAfter] ∧ k2 = 1 ∧
      ps2.map (fun q => (q.status.phase, q.status.reason, q.status.message))
        = [c8PodAfter].map (fun q => (q.status.phase, q.status.reason, q.status.message)) :=
  c8_sweep_idempotent 61 (fun _ _ => Except.ok none) (fun _ _ => none) [c8Pod] [c8PodAfter] 1
    (by decide)
